import Mathlib

/-!
Verification of the SpotifyAutopause audio-monitor core
(`src/spotify-autopause.py`), shallowly embedded in Lean 4.

External collaborators (OS queries via `osascript`, `pmset`, `ps`, the
timer, and the `tabulate` library) are modelled as explicit inputs or as
deterministic functions; everything else is translated directly from the
Python source.
-/

namespace SpotifyAutopause

/-- Constant `DELAY_WHEN_START = 2` (line 22 of the source). -/
def DELAY_WHEN_START : Nat := 2

/-- Constant `DELAY_WHEN_PLAYING = 2` (line 23 of the source). -/
def DELAY_WHEN_PLAYING : Nat := 2

/-- Constant `DELAY_WHEN_NOT_PLAYING = 3` (line 24 of the source). -/
def DELAY_WHEN_NOT_PLAYING : Nat := 3

/-- Python `str.lower()`: each character lower-cased. Defined directly on
the character list so that it evaluates by kernel reduction. -/
def pyLower (s : String) : String := ⟨s.data.map Char.toLower⟩

/-- Python `str.strip()`: leading and trailing whitespace removed. -/
def pyStrip (s : String) : String :=
  ⟨((s.data.dropWhile Char.isWhitespace).reverse.dropWhile Char.isWhitespace).reverse⟩

/-- Python `source.split('/')[-1]`: the part of the string after the
last slash (the whole string when it has no slash). -/
def lastComponent (s : String) : String :=
  ⟨(s.data.reverse.takeWhile fun c => !(c == '/')).reverse⟩

/-- Contiguous-substring test on character lists: Python's `in` operator
on strings. -/
def containsSub (needle : List Char) : List Char → Bool
  | [] => needle.isEmpty
  | c :: t => needle.isPrefixOf (c :: t) || containsSub needle t

/-- Python's `needle.lower() in hay.lower()` test used by
`is_audio_playing` (line 255): case-insensitive substring containment
on the underlying character lists. -/
def lowerSubstrOf (needle hay : String) : Bool :=
  containsSub (pyLower needle).data (pyLower hay).data

/-- Field `self.always_ignore_apps = ["Spotify"]` (line 53). -/
def always_ignore_apps : List String := ["Spotify"]

/-- Python `str.title()` on a list of characters: the first character of
every alphabetic run is upper-cased, the rest of the run lower-cased,
non-alphabetic characters pass through. The `Bool` argument records
whether the previous character was alphabetic. -/
def titleAux : Bool → List Char → List Char
  | _, [] => []
  | prevAlpha, c :: cs =>
    if c.isAlpha then
      (if prevAlpha then c.toLower else c.toUpper) :: titleAux true cs
    else
      c :: titleAux false cs

/-- Python `str.title()` as used in `list_audio_processes` (line 241). -/
def pythonTitle (s : String) : String := ⟨titleAux false s.data⟩

/-- Method `list_audio_processes` (lines 235-242). The external
`subprocess.run(['ps', '-p', pid, '-o', 'comm='], ..., check=True)` call
is modelled by `resolve : String → Option String`, where `some out` is
the stdout of a successful `ps` run and `none` is a non-zero exit status,
on which `check=True` raises `CalledProcessError`; the raised exception
propagates, so the whole call produces no list (`none`). On success each
name is stripped and title-cased, in input order. -/
def list_audio_processes (resolve : String → Option String) :
    List String → Option (List String)
  | [] => some []
  | pid :: rest =>
    match resolve pid with
    | none => none
    | some out =>
      match list_audio_processes resolve rest with
      | none => none
      | some names => some (pythonTitle (pyStrip out) :: names)

/-- Method `is_audio_playing` (lines 244-258), with the external process
enumeration already resolved to the list `all_audio_processes`. Returns
`(bool(non_ignored_audio), non_ignored_audio)`: a process is kept unless
some entry of `always_ignore_apps ++ user_ignore_apps`, lower-cased, is a
substring of the lower-cased process name. -/
def is_audio_playing (user_ignore_apps : List String)
    (all_audio_processes : List String) : Bool × List String :=
  let ignored_apps := always_ignore_apps ++ user_ignore_apps
  let non_ignored_audio := all_audio_processes.filter fun p =>
    !(ignored_apps.any fun ignored_app => lowerSubstrOf ignored_app p)
  (!non_ignored_audio.isEmpty, non_ignored_audio)

/-- Method `is_spotify_playing` (lines 209-213): if Spotify is running,
the osascript player-state result is stripped and compared to
`"playing"`; if Spotify is not running the method returns `False`
without consulting osascript. `spotify_running` models
`is_spotify_running()` and `osa_result` the osascript stdout. -/
def is_spotify_playing (spotify_running : Bool) (osa_result : String) : Bool :=
  if spotify_running then pyStrip osa_result == "playing" else false

/-- One row of the status table: the Python code appends 3-element lists
`[timestamp, spotify_state, other_audio_state]` (or
`[timestamp, action, ""]`) to `self.all_rows`. -/
structure Row where
  timestamp : String
  spotify_col : String
  other_col : String
deriving DecidableEq, Repr

/-- Append to `self.all_rows`, a `deque(maxlen=8)` (line 54): when the
deque already holds 8 rows, appending evicts the oldest (leftmost) row. -/
def push_row (rows : List Row) (r : Row) : List Row :=
  let rows' := rows ++ [r]
  if rows'.length ≤ 8 then rows' else rows'.drop (rows'.length - 8)

/-- The mutable fields of the `SpotifyAutopause` object that the audio
check cycle reads or writes (lines 50-57 and the timer interval of
line 85). `spotify_was_playing` is the spec's
`playerWasPlayingBeforeInterrupt`, `non_spotify_audio_playing` the
spec's `otherAudioPlaying`, `interval` the `check_audio_timer.interval`. -/
structure MonitorState where
  spotify_was_playing : Bool
  non_spotify_audio_playing : Bool
  user_ignore_apps : List String
  all_rows : List Row
  status_table : String
  last_spotify_state : String
  last_other_audio_state : String
  interval : Nat
deriving DecidableEq, Repr

/-- The external `tabulate` library (line 182), modelled as a
deterministic rendering of the rows under the fixed headers; the exact
textual format is outside the repository. -/
def tabulate (rows : List Row) : String :=
  String.intercalate "\n"
    ("Timestamp | Spotify | Other Audio" ::
      rows.map fun r => r.timestamp ++ " | " ++ r.spotify_col ++ " | " ++ r.other_col)

/-- Method `update_status_table` (lines 180-182). -/
def update_status_table (s : MonitorState) : MonitorState :=
  { s with status_table := tabulate s.all_rows }

/-- Method `log_audio_status` (lines 263-279): computes the two labels,
and if either differs from the last recorded one or an action label is
present, appends one row (plus a second one carrying the action when
present) and updates the last-recorded labels; otherwise does nothing. -/
def log_audio_status (s : MonitorState) (spotify_status other_audio_playing : Bool)
    (sources : List String) (action : String) (timestamp : String) : MonitorState :=
  let spotify_state := if spotify_status then "Playing" else "Paused"
  let other_audio_state :=
    if other_audio_playing then
      String.intercalate ", " (sources.map lastComponent)
    else "No Other Audio"
  if spotify_state != s.last_spotify_state
      || other_audio_state != s.last_other_audio_state
      || action != "" then
    let rows1 := push_row s.all_rows ⟨timestamp, spotify_state, other_audio_state⟩
    let rows2 := if action != "" then push_row rows1 ⟨timestamp, action, ""⟩ else rows1
    { s with all_rows := rows2,
             last_spotify_state := spotify_state,
             last_other_audio_state := other_audio_state }
  else s

/-- The player-control commands a cycle can dispatch: `pause_spotify()`
(line 200) and `play_spotify()` (line 205), both plain `osascript.run`
calls with no check that Spotify is running. -/
inductive PlayerAction where
  | pause
  | resume
deriving DecidableEq, Repr

/-- Method `handle_audio_start` (lines 162-169): set
`non_spotify_audio_playing`, and if Spotify was observed playing this
cycle, set `spotify_was_playing`, dispatch `pause_spotify()`, log with
action `"Pausing Spotify"` and lengthen the timer interval. -/
def handle_audio_start (s : MonitorState) (spotify_playing : Bool)
    (sources : List String) (timestamp : String) : MonitorState × List PlayerAction :=
  let s1 := { s with non_spotify_audio_playing := true }
  if spotify_playing then
    let s2 := { s1 with spotify_was_playing := true }
    let s3 := log_audio_status s2 spotify_playing true sources "Pausing Spotify" timestamp
    ({ s3 with interval := DELAY_WHEN_NOT_PLAYING }, [PlayerAction.pause])
  else
    (s1, [])

/-- Method `handle_audio_stop` (lines 171-178): clear
`non_spotify_audio_playing`, and if `spotify_was_playing` is set,
dispatch `play_spotify()`, log with action `"Resuming Spotify"`, clear
the flag and restore the timer interval. -/
def handle_audio_stop (s : MonitorState) (spotify_playing : Bool)
    (timestamp : String) : MonitorState × List PlayerAction :=
  let s1 := { s with non_spotify_audio_playing := false }
  if s1.spotify_was_playing then
    let s2 := log_audio_status s1 spotify_playing false [] "Resuming Spotify" timestamp
    ({ s2 with spotify_was_playing := false, interval := DELAY_WHEN_PLAYING },
      [PlayerAction.resume])
  else
    (s1, [])

/-- Body of `check_audio` (lines 143-160) after the two observations
have been made: the three-way branch of lines 151-156 followed by
`update_status_table` (line 158); `print_status` and `write_log_file`
perform no state change. Also returns the player-control commands the
cycle dispatched. -/
def check_audio_core (s : MonitorState) (spotify_playing other_audio_playing : Bool)
    (sources : List String) (timestamp : String) : MonitorState × List PlayerAction :=
  let r :=
    if other_audio_playing && !s.non_spotify_audio_playing then
      handle_audio_start s spotify_playing sources timestamp
    else if !other_audio_playing && s.non_spotify_audio_playing then
      handle_audio_stop s spotify_playing timestamp
    else
      (log_audio_status s spotify_playing other_audio_playing sources "" timestamp, [])
  (update_status_table r.1, r.2)

/-- The external observations one timer tick supplies to `check_audio`:
whether Spotify is running, the osascript player-state stdout, the
successfully resolved audio-process names, and the wall-clock timestamp. -/
structure CycleInput where
  spotify_running : Bool
  player_state_out : String
  audio_process_names : List String
  timestamp : String

/-- Method `check_audio` (lines 143-160): make the two observations
(lines 148-149) and run the three-way branch on them. -/
def check_audio (s : MonitorState) (i : CycleInput) : MonitorState × List PlayerAction :=
  let spotify_playing := is_spotify_playing i.spotify_running i.player_state_out
  let p := is_audio_playing s.user_ignore_apps i.audio_process_names
  check_audio_core s spotify_playing p.1 p.2 i.timestamp

/-- State after one poll cycle. -/
def stepState (s : MonitorState) (i : CycleInput) : MonitorState :=
  (check_audio s i).1

/-- The initial object state built by `__init__` (lines 48-59): both
flags false, rows empty, last-recorded labels empty, the timer created
with interval `DELAY_WHEN_START`; the user ignore list is loaded from
the external store. -/
def initState (user_ignore_apps : List String) : MonitorState :=
  { spotify_was_playing := false
    non_spotify_audio_playing := false
    user_ignore_apps := user_ignore_apps
    all_rows := []
    status_table := ""
    last_spotify_state := ""
    last_other_audio_state := ""
    interval := DELAY_WHEN_START }

/-- States reachable from the initial state by poll cycles. -/
inductive Reachable (u : List String) : MonitorState → Prop where
  | init : Reachable u (initState u)
  | step (s : MonitorState) (i : CycleInput) :
      Reachable u s → Reachable u (stepState s i)

/-- Running a list of poll cycles from the initial state. -/
def runInputs (u : List String) (inputs : List CycleInput) : MonitorState :=
  inputs.foldl stepState (initState u)

/-- Whether a cycle input is observed as "Spotify is playing". -/
def obsPlaying (i : CycleInput) : Bool :=
  is_spotify_playing i.spotify_running i.player_state_out

/-- Whether a cycle input is observed as "non-ignored audio present",
for a given user ignore list. -/
def obsOther (u : List String) (i : CycleInput) : Bool :=
  (is_audio_playing u i.audio_process_names).1

/-- Whether a cycle input is observed as "non-ignored audio present",
against the ignore list stored in the state. -/
def obsOtherS (s : MonitorState) (i : CycleInput) : Bool :=
  (is_audio_playing s.user_ignore_apps i.audio_process_names).1

/-! ## Projection lemmas for one poll cycle -/

theorem log_audio_status_flag (s : MonitorState) (sp oth : Bool) (srcs : List String)
    (act ts : String) :
    (log_audio_status s sp oth srcs act ts).spotify_was_playing = s.spotify_was_playing := by
  unfold log_audio_status
  dsimp only
  rw [apply_ite MonitorState.spotify_was_playing]
  simp

theorem log_audio_status_non (s : MonitorState) (sp oth : Bool) (srcs : List String)
    (act ts : String) :
    (log_audio_status s sp oth srcs act ts).non_spotify_audio_playing
      = s.non_spotify_audio_playing := by
  unfold log_audio_status
  dsimp only
  rw [apply_ite MonitorState.non_spotify_audio_playing]
  simp

theorem log_audio_status_interval (s : MonitorState) (sp oth : Bool) (srcs : List String)
    (act ts : String) :
    (log_audio_status s sp oth srcs act ts).interval = s.interval := by
  unfold log_audio_status
  dsimp only
  rw [apply_ite MonitorState.interval]
  simp

theorem log_audio_status_user (s : MonitorState) (sp oth : Bool) (srcs : List String)
    (act ts : String) :
    (log_audio_status s sp oth srcs act ts).user_ignore_apps = s.user_ignore_apps := by
  unfold log_audio_status
  dsimp only
  rw [apply_ite MonitorState.user_ignore_apps]
  simp

/-- What one cycle does to `spotify_was_playing`, by branch. -/
theorem core_flag (s : MonitorState) (sp oth : Bool) (srcs : List String) (ts : String) :
    (check_audio_core s sp oth srcs ts).1.spotify_was_playing
      = (if oth && !s.non_spotify_audio_playing then (sp || s.spotify_was_playing)
         else if !oth && s.non_spotify_audio_playing then false
         else s.spotify_was_playing) := by
  unfold check_audio_core handle_audio_start handle_audio_stop update_status_table
  dsimp only
  by_cases h1 : oth && !s.non_spotify_audio_playing <;>
    by_cases h2 : !oth && s.non_spotify_audio_playing <;>
      cases hsp : sp <;>
        cases hb : s.spotify_was_playing <;>
          simp [h1, h2, hsp, hb, log_audio_status_flag, log_audio_status_non,
            log_audio_status_interval, log_audio_status_user, log_audio_status_flag]

/-- What one cycle does to `non_spotify_audio_playing`, by branch. -/
theorem core_non (s : MonitorState) (sp oth : Bool) (srcs : List String) (ts : String) :
    (check_audio_core s sp oth srcs ts).1.non_spotify_audio_playing
      = (if oth && !s.non_spotify_audio_playing then true
         else if !oth && s.non_spotify_audio_playing then false
         else s.non_spotify_audio_playing) := by
  unfold check_audio_core handle_audio_start handle_audio_stop update_status_table
  dsimp only
  by_cases h1 : oth && !s.non_spotify_audio_playing <;>
    by_cases h2 : !oth && s.non_spotify_audio_playing <;>
      cases hsp : sp <;>
        cases hb : s.spotify_was_playing <;>
          simp [h1, h2, hsp, hb, log_audio_status_flag, log_audio_status_non,
            log_audio_status_interval, log_audio_status_user, log_audio_status_non]

/-- Which player-control commands one cycle dispatches, by branch. -/
theorem core_actions (s : MonitorState) (sp oth : Bool) (srcs : List String) (ts : String) :
    (check_audio_core s sp oth srcs ts).2
      = (if oth && !s.non_spotify_audio_playing then
           (if sp then [PlayerAction.pause] else [])
         else if !oth && s.non_spotify_audio_playing then
           (if s.spotify_was_playing then [PlayerAction.resume] else [])
         else []) := by
  unfold check_audio_core handle_audio_start handle_audio_stop update_status_table
  dsimp only
  by_cases h1 : oth && !s.non_spotify_audio_playing <;>
    by_cases h2 : !oth && s.non_spotify_audio_playing <;>
      cases hsp : sp <;>
        cases hb : s.spotify_was_playing <;>
          simp [h1, h2, hsp, hb, log_audio_status_flag, log_audio_status_non,
            log_audio_status_interval, log_audio_status_user]

/-- What one cycle does to the timer interval, by branch. -/
theorem core_interval (s : MonitorState) (sp oth : Bool) (srcs : List String) (ts : String) :
    (check_audio_core s sp oth srcs ts).1.interval
      = (if oth && !s.non_spotify_audio_playing then
           (if sp then DELAY_WHEN_NOT_PLAYING else s.interval)
         else if !oth && s.non_spotify_audio_playing then
           (if s.spotify_was_playing then DELAY_WHEN_PLAYING else s.interval)
         else s.interval) := by
  unfold check_audio_core handle_audio_start handle_audio_stop update_status_table
  dsimp only
  by_cases h1 : oth && !s.non_spotify_audio_playing <;>
    by_cases h2 : !oth && s.non_spotify_audio_playing <;>
      cases hsp : sp <;>
        cases hb : s.spotify_was_playing <;>
          simp [h1, h2, hsp, hb, log_audio_status_flag, log_audio_status_non,
            log_audio_status_interval, log_audio_status_user, log_audio_status_interval]

/-- A cycle never changes the stored user ignore list. -/
theorem core_user (s : MonitorState) (sp oth : Bool) (srcs : List String) (ts : String) :
    (check_audio_core s sp oth srcs ts).1.user_ignore_apps = s.user_ignore_apps := by
  unfold check_audio_core handle_audio_start handle_audio_stop update_status_table
  dsimp only
  by_cases h1 : oth && !s.non_spotify_audio_playing <;>
    by_cases h2 : !oth && s.non_spotify_audio_playing <;>
      cases hsp : sp <;>
        cases hb : s.spotify_was_playing <;>
          simp [h1, h2, hsp, hb, log_audio_status_flag, log_audio_status_non,
            log_audio_status_interval, log_audio_status_user, log_audio_status_user]

theorem check_audio_as_core (s : MonitorState) (i : CycleInput) :
    check_audio s i
      = check_audio_core s (obsPlaying i) (obsOtherS s i)
          (is_audio_playing s.user_ignore_apps i.audio_process_names).2 i.timestamp := rfl

theorem containsSub_iff (needle : List Char) :
    ∀ hay : List Char, containsSub needle hay = true ↔ needle <:+: hay
  | [] => by simp [containsSub]
  | c :: t => by
    rw [List.infix_cons_iff]
    simp [containsSub, containsSub_iff needle t]

theorem lowerSubstrOf_iff (needle hay : String) :
    lowerSubstrOf needle hay = true
      ↔ (pyLower needle).data <:+: (pyLower hay).data :=
  containsSub_iff (pyLower needle).data (pyLower hay).data

/-- The keep-predicate of the ignore filter holds exactly when no entry
of `"Spotify" :: u`, lower-cased, is a substring of the lower-cased
process name. -/
theorem keep_iff (u : List String) (p : String) :
    (!((always_ignore_apps ++ u).any fun ignored_app => lowerSubstrOf ignored_app p)) = true
      ↔ ¬ ∃ ig ∈ ("Spotify" :: u), (pyLower ig).data <:+: (pyLower p).data := by
  rw [Bool.not_eq_true', List.any_eq_false]
  simp [always_ignore_apps, lowerSubstrOf_iff]

/-- A state whose recorder-only fields (stored rows, rendered table and
the two last-logged labels) are replaced arbitrarily, leaving the
decision fields, the ignore list and the timer interval unchanged. -/
def withRecorder (s : MonitorState) (rows : List Row) (table ls lo : String) : MonitorState :=
  { s with
    all_rows := rows
    status_table := table
    last_spotify_state := ls
    last_other_audio_state := lo }

/-! ## Claim theorems -/

/-- Claim C10: for every enumerated source list and every ignore list,
the boolean returned by `is_audio_playing` is `true` exactly when the
returned list of non-ignored names is non-empty. -/
theorem is_audio_playing_coherent (u names : List String) :
    (is_audio_playing u names).1 = true ↔ (is_audio_playing u names).2 ≠ [] := by
  unfold is_audio_playing
  dsimp only
  rw [Bool.not_eq_true']
  exact List.isEmpty_eq_false

/-- Claim C3: the ignore filter excludes a source exactly when some
entry of `"Spotify" :: user_ignore_apps` (the managed player's own name
is always in the ignore set), lower-cased, is a substring of the
source's lower-cased display name; the returned names are a subsequence
of the enumeration (order preserved), duplicates of a kept name are all
kept, and when every enumerated source is ignored the observation is
`false` and the cycle leaves the state out of Suppressing. -/
theorem ignore_filter_correct (u names : List String) :
    (is_audio_playing u names).2.Sublist names
    ∧ (∀ p, p ∈ (is_audio_playing u names).2 ↔
        p ∈ names ∧ ¬ ∃ ig ∈ ("Spotify" :: u), (pyLower ig).data <:+: (pyLower p).data)
    ∧ (∀ p, (¬ ∃ ig ∈ ("Spotify" :: u), (pyLower ig).data <:+: (pyLower p).data) →
        (is_audio_playing u names).2.count p = names.count p)
    ∧ ((∀ p ∈ names, ∃ ig ∈ ("Spotify" :: u), (pyLower ig).data <:+: (pyLower p).data) →
        (is_audio_playing u names).1 = false
        ∧ ∀ (s : MonitorState) (i : CycleInput), s.user_ignore_apps = u →
            i.audio_process_names = names →
              (stepState s i).non_spotify_audio_playing = false) := by
  refine ⟨List.filter_sublist names, fun p => ?_, fun p hp => ?_, fun hall => ?_⟩
  · rw [show (is_audio_playing u names).2
        = names.filter fun q =>
            !((always_ignore_apps ++ u).any fun ignored_app => lowerSubstrOf ignored_app q)
      from rfl]
    rw [List.mem_filter, keep_iff]
  · rw [show (is_audio_playing u names).2
        = names.filter fun q =>
            !((always_ignore_apps ++ u).any fun ignored_app => lowerSubstrOf ignored_app q)
      from rfl]
    exact List.count_filter ((keep_iff u p).mpr hp)
  · have hnil : (is_audio_playing u names).2 = [] := by
      rw [show (is_audio_playing u names).2
          = names.filter fun q =>
              !((always_ignore_apps ++ u).any fun ignored_app => lowerSubstrOf ignored_app q)
        from rfl]
      rw [List.filter_eq_nil_iff]
      intro p hp hkeep
      exact (keep_iff u p).mp hkeep (hall p hp)
    have hfalse : (is_audio_playing u names).1 = false := by
      have := (is_audio_playing_coherent u names)
      rcases h : (is_audio_playing u names).1 with _ | _
      · rfl
      · exact absurd hnil (this.mp h)
    refine ⟨hfalse, fun s i hu hn => ?_⟩
    have hobs : obsOtherS s i = false := by
      unfold obsOtherS
      rw [hu, hn]
      exact hfalse
    show (check_audio_core s (obsPlaying i) (obsOtherS s i)
        (is_audio_playing s.user_ignore_apps i.audio_process_names).2 i.timestamp).1.non_spotify_audio_playing = false
    rw [core_non, hobs]
    cases hb : s.non_spotify_audio_playing <;> simp [hb]

/-- Witness for C3 at a concrete input: with user ignore list
`["chrome"]`, the sources `["Google Chrome Helper", "Spotify"]` are all
ignored, the observation is `false`, and a cycle from the initial state
stays out of Suppressing. -/
theorem ignore_filter_correct_witness :
    (is_audio_playing ["chrome"] ["Google Chrome Helper", "Spotify"]).1 = false
    ∧ (stepState (initState ["chrome"])
        ⟨false, "", ["Google Chrome Helper", "Spotify"], "t1"⟩).non_spotify_audio_playing
        = false := by
  have hb : (["Google Chrome Helper", "Spotify"].all fun p =>
      (["Spotify", "chrome"].any fun ig => lowerSubstrOf ig p)) = true := by decide
  have hall : ∀ p ∈ ["Google Chrome Helper", "Spotify"],
      ∃ ig ∈ ("Spotify" :: ["chrome"]), (pyLower ig).data <:+: (pyLower p).data := by
    simpa [List.all_eq_true, List.any_eq_true, lowerSubstrOf_iff] using hb
  have h := (ignore_filter_correct ["chrome"] ["Google Chrome Helper", "Spotify"]).2.2.2 hall
  exact ⟨h.1, h.2 (initState ["chrome"])
    ⟨false, "", ["Google Chrome Helper", "Spotify"], "t1"⟩ rfl rfl⟩

/-- Claim C1: on the Idle to Suppressing edge (state not yet marked,
non-ignored audio observed), if the player was observed playing this
cycle then exactly one pause is dispatched, the flag is set, and the
interval becomes the longer value 3; if it was not observed playing no
pause is dispatched and the flag stays false; the state becomes
Suppressing either way. -/
theorem idle_to_suppressing_edge (s : MonitorState) (sp : Bool) (srcs : List String)
    (ts : String) (hn : s.non_spotify_audio_playing = false)
    (hf : s.spotify_was_playing = false) :
    (sp = true →
      (check_audio_core s sp true srcs ts).2 = [PlayerAction.pause]
      ∧ (check_audio_core s sp true srcs ts).1.spotify_was_playing = true
      ∧ (check_audio_core s sp true srcs ts).1.interval = DELAY_WHEN_NOT_PLAYING)
    ∧ (sp = false →
      (check_audio_core s sp true srcs ts).2 = []
      ∧ (check_audio_core s sp true srcs ts).1.spotify_was_playing = false)
    ∧ (check_audio_core s sp true srcs ts).1.non_spotify_audio_playing = true := by
  refine ⟨fun hsp => ?_, fun hsp => ?_, ?_⟩
  · rw [core_actions, core_flag, core_interval]
    simp [hn, hf, hsp]
  · rw [core_actions, core_flag]
    simp [hn, hf, hsp]
  · rw [core_non]
    simp [hn]

/-- Witness for C1 at a concrete input: from the initial state, with the
player observed playing and the source `"Chrome"` observed. -/
theorem idle_to_suppressing_edge_witness :
    (check_audio_core (initState []) true true ["Chrome"] "t1").2 = [PlayerAction.pause]
    ∧ (check_audio_core (initState []) true true ["Chrome"] "t1").1.spotify_was_playing = true
    ∧ (check_audio_core (initState []) true true ["Chrome"] "t1").1.interval
        = DELAY_WHEN_NOT_PLAYING :=
  (idle_to_suppressing_edge (initState []) true ["Chrome"] "t1" rfl rfl).1 rfl

/-- Claim C9: the recorder state (stored rows, rendered table, and the
two last-logged labels) never influences the pause/resume decision: two
cycles from states with the same decision fields and ignore list but
arbitrarily different recorder state dispatch the same commands and
agree on the resulting decision fields. -/
theorem recorder_noninterference (s : MonitorState) (rows : List Row)
    (table ls lo : String) (i : CycleInput) :
    (check_audio (withRecorder s rows table ls lo) i).2 = (check_audio s i).2
    ∧ (check_audio (withRecorder s rows table ls lo) i).1.non_spotify_audio_playing
      = (check_audio s i).1.non_spotify_audio_playing
    ∧ (check_audio (withRecorder s rows table ls lo) i).1.spotify_was_playing
      = (check_audio s i).1.spotify_was_playing := by
  rw [check_audio_as_core, check_audio_as_core]
  refine ⟨?_, ?_, ?_⟩
  · rw [core_actions, core_actions]
    rfl
  · rw [core_non, core_non]
    rfl
  · rw [core_flag, core_flag]
    rfl

/-! ## Trace lemmas -/

theorem step_user (s : MonitorState) (i : CycleInput) :
    (stepState s i).user_ignore_apps = s.user_ignore_apps := by
  rw [stepState, check_audio_as_core]
  exact core_user s (obsPlaying i) (obsOtherS s i)
    (is_audio_playing s.user_ignore_apps i.audio_process_names).2 i.timestamp

theorem foldl_step_user (l : List CycleInput) :
    ∀ s : MonitorState, (l.foldl stepState s).user_ignore_apps = s.user_ignore_apps := by
  induction l with
  | nil => intro s; rfl
  | cons i t ih =>
    intro s
    rw [List.foldl_cons, ih (stepState s i), step_user]

theorem runInputs_user (u : List String) (l : List CycleInput) :
    (runInputs u l).user_ignore_apps = u :=
  foldl_step_user l (initState u)

theorem runInputs_append_one (u : List String) (l : List CycleInput) (i : CycleInput) :
    runInputs u (l ++ [i]) = stepState (runInputs u l) i := by
  rw [runInputs, runInputs, List.foldl_append, List.foldl_cons, List.foldl_nil]

theorem step_flag (s : MonitorState) (i : CycleInput) :
    (stepState s i).spotify_was_playing
      = (if obsOtherS s i && !s.non_spotify_audio_playing then
           (obsPlaying i || s.spotify_was_playing)
         else if !obsOtherS s i && s.non_spotify_audio_playing then false
         else s.spotify_was_playing) := by
  rw [stepState, check_audio_as_core]
  exact core_flag s (obsPlaying i) (obsOtherS s i)
    (is_audio_playing s.user_ignore_apps i.audio_process_names).2 i.timestamp

theorem step_non (s : MonitorState) (i : CycleInput) :
    (stepState s i).non_spotify_audio_playing
      = (if obsOtherS s i && !s.non_spotify_audio_playing then true
         else if !obsOtherS s i && s.non_spotify_audio_playing then false
         else s.non_spotify_audio_playing) := by
  rw [stepState, check_audio_as_core]
  exact core_non s (obsPlaying i) (obsOtherS s i)
    (is_audio_playing s.user_ignore_apps i.audio_process_names).2 i.timestamp

theorem step_actions (s : MonitorState) (i : CycleInput) :
    (check_audio s i).2
      = (if obsOtherS s i && !s.non_spotify_audio_playing then
           (if obsPlaying i then [PlayerAction.pause] else [])
         else if !obsOtherS s i && s.non_spotify_audio_playing then
           (if s.spotify_was_playing then [PlayerAction.resume] else [])
         else []) := by
  rw [check_audio_as_core]
  exact core_actions s (obsPlaying i) (obsOtherS s i)
    (is_audio_playing s.user_ignore_apps i.audio_process_names).2 i.timestamp

theorem obsOtherS_eq (s : MonitorState) (u : List String) (i : CycleInput)
    (h : s.user_ignore_apps = u) : obsOtherS s i = obsOther u i := by
  rw [obsOtherS, h, obsOther]

/-- One cycle preserves the invariant that the flag implies Suppressing. -/
theorem step_preserves_inv (s : MonitorState) (i : CycleInput)
    (h : s.spotify_was_playing = true → s.non_spotify_audio_playing = true) :
    (stepState s i).spotify_was_playing = true →
      (stepState s i).non_spotify_audio_playing = true := by
  rw [step_flag, step_non]
  cases ho : obsOtherS s i <;> cases hn : s.non_spotify_audio_playing <;> simp_all

/-- History invariant: whenever the flag is set after a run, the run
decomposes as a prefix that ended out of Suppressing, one cycle that
observed non-ignored audio with the player observed playing (the most
recent Idle to Suppressing edge), and a suffix of cycles that all kept
observing non-ignored audio; and the flag implies Suppressing. -/
theorem flag_history (u : List String) (inputs : List CycleInput) :
    ((runInputs u inputs).spotify_was_playing = true →
      (runInputs u inputs).non_spotify_audio_playing = true)
    ∧ ((runInputs u inputs).spotify_was_playing = true →
      ∃ pre i post, inputs = pre ++ i :: post
        ∧ (runInputs u pre).non_spotify_audio_playing = false
        ∧ obsOther u i = true
        ∧ obsPlaying i = true
        ∧ ∀ j ∈ post, obsOther u j = true) := by
  induction inputs using List.reverseRecOn with
  | nil =>
    constructor
    · intro h
      exact absurd h (by rw [runInputs]; simp [initState])
    · intro h
      exact absurd h (by rw [runInputs]; simp [initState])
  | append_singleton l a ih =>
    obtain ⟨ih1, ih2⟩ := ih
    have hobs : obsOtherS (runInputs u l) a = obsOther u a :=
      obsOtherS_eq (runInputs u l) u a (runInputs_user u l)
    rw [runInputs_append_one]
    constructor
    · rw [step_flag, step_non, hobs]
      cases ho : obsOther u a <;>
        cases hn : (runInputs u l).non_spotify_audio_playing <;> simp_all
    · rw [step_flag, hobs]
      cases ho : obsOther u a with
      | false =>
        cases hn : (runInputs u l).non_spotify_audio_playing with
        | false =>
          intro hf
          simp only [hn, ho, Bool.false_and, Bool.not_false, Bool.and_false,
            if_false, ite_false] at hf
          exact absurd (ih1 hf) (by rw [hn]; exact Bool.false_ne_true)
        | true =>
          intro hf
          simp [hn, ho] at hf
      | true =>
        cases hn : (runInputs u l).non_spotify_audio_playing with
        | false =>
          intro hf
          simp only [hn, ho, Bool.not_false, Bool.and_true, Bool.true_and,
            if_true, ite_true] at hf
          have hp : obsPlaying a = true := by
            cases hp : obsPlaying a with
            | true => rfl
            | false =>
              rw [hp, Bool.false_or] at hf
              exact absurd (ih1 hf) (by rw [hn]; exact Bool.false_ne_true)
          exact ⟨l, a, [], rfl, hn, ho, hp, by intro j hj; simp at hj⟩
        | true =>
          intro hf
          simp only [hn, ho, Bool.not_true, Bool.and_false, Bool.true_and,
            if_false, ite_false] at hf
          obtain ⟨pre, i, post, hdec, hpre, hoi, hpi, hpost⟩ := ih2 hf
          refine ⟨pre, i, post ++ [a], ?_, hpre, hoi, hpi, ?_⟩
          · rw [hdec]
            simp
          · intro j hj
            rcases List.mem_append.mp hj with hj1 | hj2
            · exact hpost j hj1
            · rw [List.mem_singleton.mp hj2]
              exact ho

/-- A concrete cycle observation: Spotify running and playing, the
non-ignored source Chrome producing audio. -/
def exStartInput : CycleInput := ⟨true, "playing\n", ["Chrome"], "t1"⟩

/-- The concrete Suppressing state reached from the initial state after
one cycle observing `exStartInput`. -/
def exSuppressing : MonitorState := stepState (initState []) exStartInput

/-- Claim C2: on the Suppressing to Idle edge, resume is dispatched if
and only if the flag is set; when it is, exactly one resume is
dispatched, the flag is cleared and the interval returns to the normal
value 2; when it is clear nothing is dispatched. Moreover, in any run
from the initial state, the flag is set only when the player was
observed playing at the most recent Idle to Suppressing edge (the last
cycle that observed non-ignored audio from an Idle state, with only
audio-observing cycles after it). -/
theorem suppressing_to_idle_resume :
    (∀ (s : MonitorState) (sp : Bool) (srcs : List String) (ts : String),
      s.non_spotify_audio_playing = true →
        ((PlayerAction.resume ∈ (check_audio_core s sp false srcs ts).2)
            ↔ s.spotify_was_playing = true)
        ∧ (s.spotify_was_playing = true →
            (check_audio_core s sp false srcs ts).2 = [PlayerAction.resume]
            ∧ (check_audio_core s sp false srcs ts).1.spotify_was_playing = false
            ∧ (check_audio_core s sp false srcs ts).1.interval = DELAY_WHEN_PLAYING)
        ∧ (s.spotify_was_playing = false →
            (check_audio_core s sp false srcs ts).2 = []))
    ∧ (∀ (u : List String) (inputs : List CycleInput),
        (runInputs u inputs).spotify_was_playing = true →
        ∃ pre i post, inputs = pre ++ i :: post
          ∧ (runInputs u pre).non_spotify_audio_playing = false
          ∧ obsOther u i = true
          ∧ obsPlaying i = true
          ∧ ∀ j ∈ post, obsOther u j = true) := by
  constructor
  · intro s sp srcs ts hn
    refine ⟨?_, fun hf => ?_, fun hf => ?_⟩
    · rw [core_actions]
      cases hb : s.spotify_was_playing <;> simp [hn, hb]
    · rw [core_actions, core_flag, core_interval]
      simp [hn, hf]
    · rw [core_actions]
      simp [hn, hf]
  · intro u inputs
    exact (flag_history u inputs).2

/-- Witness for C2 at a concrete input: from the concrete Suppressing
state with the flag set, a cycle observing no non-ignored audio
dispatches exactly one resume, clears the flag and restores the normal
interval. -/
theorem suppressing_to_idle_resume_witness :
    (check_audio_core exSuppressing false false [] "t2").2 = [PlayerAction.resume]
    ∧ (check_audio_core exSuppressing false false [] "t2").1.spotify_was_playing = false
    ∧ (check_audio_core exSuppressing false false [] "t2").1.interval = DELAY_WHEN_PLAYING :=
  (suppressing_to_idle_resume.1 exSuppressing false [] "t2" (by decide)).2.1 (by decide)

/-- Claim C4: in every reachable state the flag implies Suppressing; a
clear flag becomes set only on a cycle that is an Idle to Suppressing
edge with the player observed playing; and from a set flag, the flag is
cleared by a cycle exactly when that cycle dispatches resume. -/
theorem flag_only_with_suppressing :
    (∀ (u : List String) (s : MonitorState), Reachable u s →
        s.spotify_was_playing = true → s.non_spotify_audio_playing = true)
    ∧ (∀ (s : MonitorState) (i : CycleInput), s.spotify_was_playing = false →
        (stepState s i).spotify_was_playing = true →
          obsOtherS s i = true ∧ s.non_spotify_audio_playing = false
          ∧ obsPlaying i = true)
    ∧ (∀ (s : MonitorState) (i : CycleInput), s.spotify_was_playing = true →
        ((stepState s i).spotify_was_playing = false
          ↔ PlayerAction.resume ∈ (check_audio s i).2)) := by
  refine ⟨?_, ?_, ?_⟩
  · intro u s h
    induction h with
    | init => intro hf; exact absurd hf (by simp [initState])
    | step s' i hr ih => exact step_preserves_inv s' i ih
  · intro s i hf hstep
    rw [step_flag] at hstep
    cases ho : obsOtherS s i <;>
      cases hn : s.non_spotify_audio_playing <;>
        simp_all
  · intro s i hf
    rw [step_flag, step_actions]
    cases ho : obsOtherS s i <;>
      cases hn : s.non_spotify_audio_playing <;>
        cases hp : obsPlaying i <;>
          simp_all

/-- Witness for C4 at a concrete input: from the initial state, the
cycle observing `exStartInput` sets the flag, and indeed it is an Idle
to Suppressing edge with the player observed playing. -/
theorem flag_only_with_suppressing_witness :
    obsOtherS (initState []) exStartInput = true
    ∧ (initState []).non_spotify_audio_playing = false
    ∧ obsPlaying exStartInput = true :=
  flag_only_with_suppressing.2.1 (initState []) exStartInput rfl (by decide)

/-- A concrete cycle observation in which Spotify is no longer running
and no audio source is active. -/
def exStopNotRunning : CycleInput := ⟨false, "", [], "t2"⟩

/-- Claim C5 counterexample: a reachable execution dispatches `resume`
during a cycle whose observation found the player not running. From the
initial state, one cycle observes Chrome with Spotify playing (pause,
flag set); Spotify is then quit, and the next cycle observes no audio
and Spotify not running, yet `handle_audio_stop` dispatches
`play_spotify()` with no running check. -/
theorem resume_dispatched_while_not_running :
    Reachable [] exSuppressing
    ∧ exStopNotRunning.spotify_running = false
    ∧ PlayerAction.resume ∈ (check_audio exSuppressing exStopNotRunning).2 :=
  ⟨Reachable.step (initState []) exStartInput Reachable.init, rfl, by decide⟩

/-- Claim C5 amended: `is_spotify_playing` returns false (without error)
when the player is not running, and a pause can only be dispatched in a
cycle whose observation had the player running (pause requires the
player observed playing, which requires it running); but resume is
dispatched from the stored flag alone, with no running check before
dispatch, and can occur while the player is not running. -/
theorem pause_only_when_observed_running :
    (∀ (s : MonitorState) (i : CycleInput),
        PlayerAction.pause ∈ (check_audio s i).2 → i.spotify_running = true)
    ∧ (∀ osa_result : String, is_spotify_playing false osa_result = false) := by
  constructor
  · intro s i h
    rw [step_actions] at h
    cases hr : i.spotify_running with
    | true => rfl
    | false =>
      have hp : obsPlaying i = false := by
        rw [obsPlaying, is_spotify_playing, hr]
        simp
      cases ho : obsOtherS s i <;>
        cases hn : s.non_spotify_audio_playing <;>
          cases hb : s.spotify_was_playing <;>
            simp_all
  · intro osa_result
    rw [is_spotify_playing]
    simp

/-- Witness for the amended C5: the concrete pause-dispatching cycle
`exStartInput` indeed had Spotify running. -/
theorem pause_only_when_observed_running_witness :
    exStartInput.spotify_running = true :=
  pause_only_when_observed_running.1 (initState []) exStartInput (by decide)

/-- A concrete resolver for which PID "100" resolves to a `ps` output
and every other PID fails (non-zero `ps` exit status). -/
def resolveFail : String → Option String :=
  fun pid => if pid == "100" then some " chrome\n" else none

/-- Claim C6 counterexample: with PIDs ["100", "200"] where PID "200"
fails to resolve, `check=True` raises and the whole enumeration
produces no result, instead of omitting the failed entry and completing
with `["Chrome"]`. -/
theorem resolution_failure_aborts_enumeration :
    list_audio_processes resolveFail ["100", "200"] = none
    ∧ list_audio_processes resolveFail ["100", "200"] ≠ some ["Chrome"] := by
  exact ⟨rfl, by decide⟩

/-- Claim C6 amended: a resolution failure for any PID in the list
aborts the whole enumeration, producing no result for the cycle (the
failed entry is not merely omitted); only when every PID resolves does
the enumeration complete, and then it lists each resolved name,
stripped and title-cased, in enumeration order. -/
theorem list_audio_processes_all_or_nothing :
    ∀ (resolve : String → Option String) (pids : List String),
      (list_audio_processes resolve pids = none ↔ ∃ pid ∈ pids, resolve pid = none)
      ∧ (∀ names, list_audio_processes resolve pids = some names →
          names = pids.map fun pid => pythonTitle (pyStrip ((resolve pid).getD ""))) := by
  intro resolve pids
  induction pids with
  | nil => simp [list_audio_processes]
  | cons pid rest ih =>
    constructor
    · constructor
      · intro h
        rw [list_audio_processes] at h
        cases hr : resolve pid with
        | none => exact ⟨pid, List.mem_cons_self pid rest, hr⟩
        | some out =>
          rw [hr] at h
          cases hrest : list_audio_processes resolve rest with
          | none =>
            obtain ⟨q, hq, hqn⟩ := ih.1.mp hrest
            exact ⟨q, List.mem_cons_of_mem pid hq, hqn⟩
          | some names => rw [hrest] at h; exact absurd h (by simp)
      · rintro ⟨q, hq, hqn⟩
        rw [list_audio_processes]
        rcases List.mem_cons.mp hq with hq1 | hq2
        · rw [← hq1, hqn]
        · have hrest : list_audio_processes resolve rest = none :=
            ih.1.mpr ⟨q, hq2, hqn⟩
          cases hr : resolve pid with
          | none => rfl
          | some out => rw [hrest]
    · intro names h
      rw [list_audio_processes] at h
      cases hr : resolve pid with
      | none => rw [hr] at h; exact absurd h (by simp)
      | some out =>
        rw [hr] at h
        cases hrest : list_audio_processes resolve rest with
        | none => rw [hrest] at h; exact absurd h (by simp)
        | some ns =>
          rw [hrest] at h
          have hns := ih.2 ns hrest
          have hnames : names = pythonTitle (pyStrip out) :: ns := by
            cases h
            rfl
          rw [hnames, hns, List.map_cons, hr]
          rfl

/-- A concrete resolver for which every PID resolves. -/
def resolveGood : String → Option String := fun _ => some " chrome\n"

/-- Witness for the amended C6: with every PID resolving, the
enumeration completes with the stripped, title-cased names in order. -/
theorem list_audio_processes_all_or_nothing_witness :
    ["Chrome"] = (["100"].map fun pid => pythonTitle (pyStrip ((resolveGood pid).getD ""))) :=
  (list_audio_processes_all_or_nothing resolveGood ["100"]).2 ["Chrome"] (by decide)

/-- Concrete quiet-pair trace for C7: a start edge with the player not
playing (logs nothing), a no-edge cycle that logs the Chrome row, and a
stop edge with a clear flag (logs nothing). -/
def quietK1 : CycleInput := ⟨false, "", ["Chrome"], "t1"⟩

/-- Second cycle of the C7 trace: still observing Chrome. -/
def quietK2 : CycleInput := ⟨false, "", ["Chrome"], "t2"⟩

/-- Third cycle of the C7 trace: no audio observed (stop edge). -/
def quietK3 : CycleInput := ⟨false, "", [], "t3"⟩

/-- Fourth cycle of the C7 trace: again no audio observed. -/
def quietK4 : CycleInput := ⟨false, "", [], "t4"⟩

/-- The reachable state after the first three cycles of the C7 trace. -/
def quietPairState : MonitorState := runInputs [] [quietK1, quietK2, quietK3]

/-- Claim C7 counterexample: cycles `quietK3` and `quietK4` both observe
no non-ignored audio and dispatch nothing, the player's play-state label
this cycle ("Paused") equals the last recorded one, yet the fourth cycle
appends a status row — because the stop edge `quietK3` had a clear flag
and logged nothing, leaving the last other-audio label at "Chrome". -/
theorem no_audio_cycle_appends_row :
    obsOther [] quietK3 = false
    ∧ obsOther [] quietK4 = false
    ∧ quietPairState.last_spotify_state = "Paused"
    ∧ obsPlaying quietK4 = false
    ∧ (check_audio quietPairState quietK4).2 = []
    ∧ quietPairState.all_rows.length = 1
    ∧ (check_audio quietPairState quietK4).1.all_rows.length = 2 := by
  decide

/-- Claim C7 amended: on the second of two consecutive cycles observing
no non-ignored audio (the state is already out of Suppressing), no
pause or resume is dispatched; and no status row is appended provided
the player's play-state label is unchanged and, in addition, the last
recorded other-audio label is already "No Other Audio" — the extra
condition is needed because a stop edge with a clear flag logs nothing. -/
theorem no_audio_pair_noop (s : MonitorState) (sp : Bool) (srcs : List String)
    (ts : String) (hn : s.non_spotify_audio_playing = false) :
    (check_audio_core s sp false srcs ts).2 = []
    ∧ ((if sp then "Playing" else "Paused") = s.last_spotify_state →
        s.last_other_audio_state = "No Other Audio" →
        (check_audio_core s sp false srcs ts).1.all_rows = s.all_rows) := by
  constructor
  · rw [core_actions]
    cases hb : s.spotify_was_playing <;> simp [hn, hb]
  · intro h1 h2
    have hbranch : check_audio_core s sp false srcs ts
        = (update_status_table (log_audio_status s sp false srcs "" ts), []) := by
      unfold check_audio_core
      rw [hn]
      simp
    rw [hbranch]
    show (log_audio_status s sp false srcs "" ts).all_rows = s.all_rows
    unfold log_audio_status
    dsimp only
    rw [if_neg]
    simp [← h1, h2]

/-- A concrete Idle state whose last recorded labels are "Paused" and
"No Other Audio". -/
def idleCalm : MonitorState :=
  { initState [] with
    last_spotify_state := "Paused"
    last_other_audio_state := "No Other Audio" }

/-- Witness for the amended C7 at a concrete input: from `idleCalm`, a
cycle observing no audio with the player paused dispatches nothing and
appends nothing. -/
theorem no_audio_pair_noop_witness :
    (check_audio_core idleCalm false false [] "t9").2 = []
    ∧ (check_audio_core idleCalm false false [] "t9").1.all_rows = idleCalm.all_rows := by
  have h := no_audio_pair_noop idleCalm false [] "t9" rfl
  exact ⟨h.1, h.2 rfl rfl⟩

/-- Claim C8 counterexample: a record operation whose two labels are
unchanged and whose action label is empty appends no row at all,
refuting "each record appends one row". -/
theorem record_can_append_nothing :
    idleCalm.all_rows.length = 0
    ∧ (log_audio_status idleCalm false false [] "" "t9").all_rows.length = 0 := by
  decide

theorem push_row_length (rows : List Row) (r : Row) :
    (push_row rows r).length = min (rows.length + 1) 8 := by
  unfold push_row
  dsimp only
  split <;> rename_i h <;>
    simp [List.length_append] at h ⊢ <;> omega

/-- Row-count characterization of one record operation. -/
theorem log_rows_length (s : MonitorState) (sp oth : Bool) (srcs : List String)
    (act ts : String) :
    (log_audio_status s sp oth srcs act ts).all_rows.length
      = (if ((if sp then "Playing" else "Paused") != s.last_spotify_state
            || (if oth then String.intercalate ", " (srcs.map lastComponent)
                else "No Other Audio") != s.last_other_audio_state
            || act != "") then
          min (s.all_rows.length + (if act != "" then 2 else 1)) 8
        else s.all_rows.length) := by
  unfold log_audio_status
  dsimp only
  split <;> split <;> split <;>
    first
    | rfl
    | (by_cases hact : (act != "") = true <;>
        (simp [hact, push_row_length]; try omega))

theorem log_rows_le (s : MonitorState) (sp oth : Bool) (srcs : List String)
    (act ts : String) (h : s.all_rows.length ≤ 8) :
    (log_audio_status s sp oth srcs act ts).all_rows.length ≤ 8 := by
  rw [log_rows_length]
  split <;> split <;> split <;>
    first
    | exact h
    | exact Nat.min_le_right _ _

theorem step_rows_le (s : MonitorState) (i : CycleInput)
    (h : s.all_rows.length ≤ 8) :
    (stepState s i).all_rows.length ≤ 8 := by
  rw [stepState, check_audio_as_core]
  unfold check_audio_core update_status_table handle_audio_start handle_audio_stop
  dsimp only
  split
  · split
    · exact log_rows_le _ _ _ _ _ _ h
    · exact h
  · split
    · split
      · exact log_rows_le _ _ _ _ _ _ h
      · exact h
    · exact log_rows_le _ _ _ _ _ _ h

theorem reachable_rows_le (u : List String) (s : MonitorState) (h : Reachable u s) :
    s.all_rows.length ≤ 8 := by
  induction h with
  | init => simp [initState]
  | step s' i hr ih => exact step_rows_le s' i ih

/-- Claim C8 amended: in every reachable state the recorder holds at
most 8 rows; appending to a full buffer evicts the oldest (head) row;
appending yields `min (n+1) 8` rows; and a record operation adds one
row — two when an action label is present — exactly when a label
changed or an action label is present, and adds nothing otherwise. -/
theorem ring_buffer_bound :
    (∀ (u : List String) (s : MonitorState), Reachable u s → s.all_rows.length ≤ 8)
    ∧ (∀ (rows : List Row) (r : Row), rows.length = 8 →
        push_row rows r = rows.tail ++ [r])
    ∧ (∀ (rows : List Row) (r : Row), (push_row rows r).length = min (rows.length + 1) 8)
    ∧ (∀ (s : MonitorState) (sp oth : Bool) (srcs : List String) (act ts : String),
        (log_audio_status s sp oth srcs act ts).all_rows.length
          = (if ((if sp then "Playing" else "Paused") != s.last_spotify_state
                || (if oth then String.intercalate ", " (srcs.map lastComponent)
                    else "No Other Audio") != s.last_other_audio_state
                || act != "") then
              min (s.all_rows.length + (if act != "" then 2 else 1)) 8
            else s.all_rows.length)) := by
  refine ⟨reachable_rows_le, ?_, push_row_length, log_rows_length⟩
  intro rows r h
  unfold push_row
  dsimp only
  rw [if_neg (by simp [List.length_append, h])]
  have hlen : (rows ++ [r]).length - 8 = 1 := by
    simp [List.length_append, h]
  rw [hlen, List.drop_append_of_le_length (by rw [h]; omega), List.drop_one]

/-- A concrete full buffer of 8 rows. -/
def eightRows : List Row :=
  [⟨"1", "", ""⟩, ⟨"2", "", ""⟩, ⟨"3", "", ""⟩, ⟨"4", "", ""⟩,
   ⟨"5", "", ""⟩, ⟨"6", "", ""⟩, ⟨"7", "", ""⟩, ⟨"8", "", ""⟩]

/-- Witness for the amended C8: appending a ninth row to a full buffer
evicts the first row. -/
theorem ring_buffer_bound_witness :
    push_row eightRows ⟨"9", "", ""⟩ = eightRows.tail ++ [⟨"9", "", ""⟩] :=
  ring_buffer_bound.2.1 eightRows ⟨"9", "", ""⟩ (by decide)

end SpotifyAutopause
